import Mathlib

/-!
Shallow embedding of the WhatsApp-side connector glue of a Matrix bridge
(files `pkg/connector/connector.go` and `pkg/connector/commands.go`), together
with theorems settling the specification claims about it.

Machine integers are modelled as `Int`/`Nat` (no overflow is relevant to the
translated code paths); Go `time.Time` values are modelled as Unix seconds,
with the two external library mute sentinels (`event.MutedForever`,
`bridgev2.Unmuted`) modelled as distinguished constructors; Go maps are
modelled as association lists with overwrite-on-insert semantics; fallible
calls into the out-of-tree protocol client and database are modelled as
`Except`-valued oracles supplied as parameters; side effects (replies, log
lines, saves, downstream calls) are modelled as explicit effect traces.
-/

namespace MautrixWA

/-- whatsmeow `types.JID`: user part, agent, device and server discriminator. -/
structure JID where
  user : String
  rawAgent : Nat
  device : Nat
  server : String
deriving DecidableEq, Repr

/-- whatsmeow `JID.ToNonAD`: drop the agent and device parts. -/
def JID.toNonAD (j : JID) : JID :=
  { user := j.user, rawAgent := 0, device := 0, server := j.server }

/-- whatsmeow `JID.IsEmpty`: a JID with no server component. -/
def JID.isEmpty (j : JID) : Bool :=
  j.server = ""

def DefaultUserServer : String := "s.whatsapp.net"

def GroupServer : String := "g.us"

def BroadcastServer : String := "broadcast"

def NewsletterServer : String := "newsletter"

/-- whatsmeow `types.StatusBroadcastJID`. -/
def StatusBroadcastJID : JID :=
  { user := "status", rawAgent := 0, device := 0, server := BroadcastServer }

/-- Modelled from the spec: `waid.MakeUserID` (package `pkg/waid`, not included
under `src/`) translates a remote JID into the bridge framework user
identifier; the spec describes the member map as keyed by the remote JID
translated to a framework identifier. We model the identifier as the user
part of the JID. -/
def MakeUserID (jid : JID) : String := jid.user

/-- Modelled from the spec: `waid.MakePortalID` (package `pkg/waid`, not
included under `src/`) renders a JID as the bridge framework portal
identifier. -/
def MakePortalID (jid : JID) : String := jid.user ++ "@" ++ jid.server

/-- Modelled from the spec: `waid.ParseUserLoginID` (package `pkg/waid`, not
included under `src/`) reconstructs the remote user JID from a persisted
login identifier and a device number. -/
def ParseUserLoginID (id : String) (deviceID : Nat) : JID :=
  { user := id, rawAgent := 0, device := deviceID, server := DefaultUserServer }

/-- `bridgev2.EventSender`; Go zero values are structure field defaults. -/
structure EventSender where
  isFromMe : Bool := false
  senderLogin : String := ""
  sender : String := ""
deriving DecidableEq, Repr

/-- `bridgev2.ChatMember` (the fields used by this code). -/
structure ChatMember where
  eventSender : EventSender := {}
  membership : String := ""
  powerLevel : Option Int := none
deriving DecidableEq, Repr

def MembershipJoin : String := "join"

/-- Go map insertion: overwrite the entry if the key is already present, else
append; keys stay unique for maps built only through this function. -/
def mapSet : List (String × ChatMember) → String → ChatMember → List (String × ChatMember)
  | [], k, v => [(k, v)]
  | p :: t, k, v => if p.fst = k then (k, v) :: t else p :: mapSet t k v

/-- Go map literal: entries inserted left to right (later duplicates win). -/
def mapLit (entries : List (String × ChatMember)) : List (String × ChatMember) :=
  entries.foldl (fun m e => mapSet m e.fst e.snd) []

/-- Go map lookup. -/
def mapGet : List (String × ChatMember) → String → Option ChatMember
  | [], _ => none
  | p :: t, k => if p.fst = k then some p.snd else mapGet t k

/-- `bridgev2.PowerLevelOverrides` (fields used here); the `Events` map has
constant distinct keys, so a plain association list is faithful. -/
structure PowerLevelOverrides where
  events : List (String × Int) := []
  eventsDefault : Option Int := none
  stateDefault : Option Int := none
  ban : Option Int := none
deriving DecidableEq, Repr

/-- `bridgev2.ChatMemberList` (fields used here). -/
structure ChatMemberList where
  isFull : Bool := false
  totalMemberCount : Int := 0
  otherUserID : String := ""
  memberMap : List (String × ChatMember) := []
  powerLevels : Option PowerLevelOverrides := none
deriving DecidableEq, Repr

/-- Bridge time values: the two external sentinels plus ordinary Unix times. -/
inductive BridgeTime where
  | mutedForever
  | unmuted
  | unix (sec : Int)
deriving DecidableEq, Repr

/-- `bridgev2.UserLocalPortalInfo` (fields used here). -/
structure UserLocalPortalInfo where
  mutedUntil : Option BridgeTime := none
  tag : Option String := none
deriving DecidableEq, Repr

def RoomTagFavourite : String := "m.favourite"

def RoomTagLowPriority : String := "m.lowpriority"

/-- `database.DisappearingSetting`; the timer is kept in seconds. -/
structure DisappearingSetting where
  settingType : String := ""
  timerSeconds : Int := 0
deriving DecidableEq, Repr

def DisappearingTypeAfterRead : String := "after_read"

/-- The avatar fetch closures are modelled as data describing the strategy. -/
inductive AvatarGet where
  | notSet
  | downloadDirectPath (path : String)
  | fetchFullInfoThenDownload (newsletterJID : JID)
deriving DecidableEq, Repr

/-- `bridgev2.Avatar` (fields used here). -/
structure Avatar where
  id : String := ""
  remove : Bool := false
  get : AvatarGet := AvatarGet.notSet
deriving DecidableEq, Repr

/-- The extra updater attached by `updateDisappearingTimerSetAt`. -/
inductive ExtraUpdate where
  | disappearingTimerSetAt (ts : Int)
deriving DecidableEq, Repr

/-- `bridgev2.ChatInfo` (fields used here); `Type` is rendered `roomType`. -/
structure ChatInfo where
  name : Option String := none
  topic : Option String := none
  avatar : Option Avatar := none
  members : Option ChatMemberList := none
  roomType : Option String := none
  disappear : Option DisappearingSetting := none
  parentID : Option String := none
  userLocal : Option UserLocalPortalInfo := none
  canBackfill : Bool := false
  extraUpdates : List ExtraUpdate := []
deriving DecidableEq, Repr

def RoomTypeDefault : String := ""

def RoomTypeDM : String := "dm"

def RoomTypeSpace : String := "space"

/-- The per-login client wrapper state used by chat-info translation: the
remote JID of the logged-in user. -/
structure WhatsAppClient where
  jid : JID
deriving DecidableEq, Repr

/-- Modelled from the spec: `makeEventSender` (client wrapper code not
included under `src/`) builds the framework event sender for a remote JID:
sender identifiers are the translated JID and the from-me flag marks the
logged-in user own address. -/
def WhatsAppClient.makeEventSender (wa : WhatsAppClient) (id : JID) : EventSender :=
  { isFromMe := id.user = wa.jid.user
    senderLogin := id.user
    sender := MakeUserID id }

def PrivateChatTopic : String := "WhatsApp private chat"

def StatusBroadcastTopic : String := "WhatsApp status updates from your contacts"

def StatusBroadcastName : String := "WhatsApp Status Broadcast"

/-- `wrapDMInfo` from `connector.go`: the base two-member map, overridden by
the force-split self-chat map when the peer JID is the logged-in user own
normalized address. -/
def WhatsAppClient.wrapDMInfo (wa : WhatsAppClient) (jid : JID) : ChatInfo :=
  let members : ChatMemberList :=
    { isFull := true
      totalMemberCount := 2
      otherUserID := MakeUserID jid
      memberMap := mapLit
        [(MakeUserID jid, { eventSender := wa.makeEventSender jid }),
         (MakeUserID wa.jid, { eventSender := wa.makeEventSender wa.jid })]
      powerLevels := none }
  let members :=
    if jid = wa.jid.toNonAD then
      { members with
          memberMap := mapLit
            [(MakeUserID jid, { eventSender := { sender := MakeUserID jid } }),
             ("", { eventSender := { isFromMe := true } })] }
    else members
  { topic := some PrivateChatTopic
    members := some members
    roomType := some RoomTypeDM }

/-- `wrapStatusBroadcastInfo` from `connector.go`. -/
def WhatsAppClient.wrapStatusBroadcastInfo (wa : WhatsAppClient) : ChatInfo :=
  { name := some StatusBroadcastName
    topic := some StatusBroadcastTopic
    members := some
      { isFull := false
        memberMap := mapLit
          [(MakeUserID wa.jid, { eventSender := wa.makeEventSender wa.jid })] }
    roomType := some RoomTypeDefault
    canBackfill := false }

def nobodyPL : Int := 99

def superAdminPL : Int := 75

def adminPL : Int := 50

def defaultPL : Int := 0

def StateRoomName : String := "m.room.name"

def StateRoomAvatar : String := "m.room.avatar"

def StateTopic : String := "m.room.topic"

def EventReaction : String := "m.reaction"

def EventRedaction : String := "m.room.redaction"

/-- whatsmeow `types.GroupParticipant` (fields used here). -/
structure GroupParticipant where
  jid : JID
  isAdmin : Bool := false
  isSuperAdmin : Bool := false
deriving DecidableEq, Repr

/-- whatsmeow `types.GroupInfo` (fields used here, flattened). -/
structure GroupInfo where
  jid : JID
  name : String := ""
  topic : String := ""
  isAnnounce : Bool := false
  isLocked : Bool := false
  isIncognito : Bool := false
  isParent : Bool := false
  linkedParentJID : JID := { user := "", rawAgent := 0, device := 0, server := "" }
  disappearingTimer : Int := 0
  participants : List GroupParticipant := []
deriving DecidableEq, Repr

/-- The member record built by the participant loop body of `wrapGroupInfo`:
three-tier power level (super-admin, admin, member). -/
def WhatsAppClient.wrapGroupMember (wa : WhatsAppClient) (pcp : GroupParticipant) : ChatMember :=
  { eventSender := wa.makeEventSender pcp.jid
    membership := MembershipJoin
    powerLevel := some
      (if pcp.isSuperAdmin then superAdminPL
       else if pcp.isAdmin then adminPL
       else defaultPL) }

/-- One step of the participant loop of `wrapGroupInfo`: non-default-server
participants are skipped (`continue`), others are inserted into the map. -/
def WhatsAppClient.groupMemberStep (wa : WhatsAppClient)
    (m : List (String × ChatMember)) (pcp : GroupParticipant) :
    List (String × ChatMember) :=
  if pcp.jid.server ≠ DefaultUserServer then m
  else mapSet m (MakeUserID pcp.jid) (wa.wrapGroupMember pcp)

/-- `wrapGroupInfo` from `connector.go`. -/
def WhatsAppClient.wrapGroupInfo (wa : WhatsAppClient) (info : GroupInfo) : ChatInfo :=
  let sendEventPL := if info.isAnnounce then adminPL else defaultPL
  let metaChangePL := if info.isLocked then adminPL else defaultPL
  let memberMap := info.participants.foldl (wa.groupMemberStep) []
  { name := some info.name
    topic := some info.topic
    members := some
      { isFull := !info.isIncognito
        totalMemberCount := (info.participants.length : Int)
        memberMap := memberMap
        powerLevels := some
          { eventsDefault := some sendEventPL
            stateDefault := some nobodyPL
            ban := some nobodyPL
            events :=
              [(StateRoomName, metaChangePL),
               (StateRoomAvatar, metaChangePL),
               (StateTopic, metaChangePL),
               (EventReaction, defaultPL),
               (EventRedaction, defaultPL)] } }
    disappear := some
      { settingType := DisappearingTypeAfterRead
        timerSeconds := info.disappearingTimer }
    parentID :=
      if !info.linkedParentJID.isEmpty then some (MakePortalID info.linkedParentJID)
      else none
    roomType := some (if info.isParent then RoomTypeSpace else RoomTypeDefault) }

def NewsletterRoleAdmin : String := "admin"

def NewsletterRoleOwner : String := "owner"

def NewsletterMuteOn : String := "on"

def NewsletterMuteOff : String := "off"

/-- whatsmeow newsletter picture info (fields used here). -/
structure NewsletterPicture where
  id : String := ""
  directPath : String := ""
deriving DecidableEq, Repr

/-- whatsmeow `types.NewsletterThreadMetadata` (fields used here, flattened). -/
structure NewsletterThreadMeta where
  nameText : String := ""
  descriptionText : String := ""
  subscriberCount : Int := 0
  picture : Option NewsletterPicture := none
  previewID : String := ""
  previewDirectPath : String := ""
deriving DecidableEq, Repr

/-- whatsmeow `types.NewsletterViewerMetadata`: role and mute state enums,
kept as their wire strings. -/
structure NewsletterViewerMeta where
  role : String := ""
  mute : String := ""
deriving DecidableEq, Repr

/-- whatsmeow `types.NewsletterMetadata` (fields used here). -/
structure NewsletterMetadata where
  id : JID
  threadMeta : NewsletterThreadMeta := {}
  viewerMeta : Option NewsletterViewerMeta := none
deriving DecidableEq, Repr

/-- `wrapNewsletterInfo` from `connector.go`. -/
def WhatsAppClient.wrapNewsletterInfo (wa : WhatsAppClient) (info : NewsletterMetadata) : ChatInfo :=
  let ownPowerLevel : Int :=
    match info.viewerMeta with
    | none => defaultPL
    | some vm =>
        if vm.role = NewsletterRoleAdmin then adminPL
        else if vm.role = NewsletterRoleOwner then superAdminPL
        else defaultPL
  let mutedUntil : Option BridgeTime :=
    match info.viewerMeta with
    | none => none
    | some vm =>
        if vm.mute = NewsletterMuteOn then some BridgeTime.mutedForever
        else if vm.mute = NewsletterMuteOff then some BridgeTime.unmuted
        else none
  let avatar : Avatar :=
    match info.threadMeta.picture with
    | some pic => { id := pic.id, get := AvatarGet.downloadDirectPath pic.directPath }
    | none =>
        if info.threadMeta.previewID ≠ "" then
          { id := info.threadMeta.previewID
            get := AvatarGet.fetchFullInfoThenDownload info.id }
        else { id := "remove", remove := true }
  { name := some info.threadMeta.nameText
    topic := some info.threadMeta.descriptionText
    avatar := some avatar
    userLocal := some { mutedUntil := mutedUntil }
    members := some
      { totalMemberCount := info.threadMeta.subscriberCount
        memberMap := mapLit
          [(MakeUserID wa.jid,
            { eventSender := wa.makeEventSender wa.jid
              powerLevel := some ownPowerLevel })]
        powerLevels := some
          { eventsDefault := some adminPL
            stateDefault := some nobodyPL
            ban := some nobodyPL
            events :=
              [(StateRoomName, adminPL),
               (StateRoomAvatar, adminPL),
               (StateTopic, adminPL),
               (EventReaction, defaultPL),
               (EventRedaction, defaultPL)] } }
    roomType := some RoomTypeDefault }

/-- `store.ChatSettings` record returned by the credential store (fields used
by `applyChatSettings`). -/
structure LocalChatSettings where
  mutedUntil : BridgeTime := BridgeTime.unix 0
  pinned : Bool := false
  archived : Bool := false
deriving DecidableEq, Repr

/-- The out-of-tree collaborator calls made during chat-info translation,
modelled as oracles: group info fetch, newsletter info fetch and the chat
settings lookup. -/
structure ClientEnv where
  getGroupInfo : JID → Except String GroupInfo
  getNewsletterInfo : JID → Except String NewsletterMetadata
  getChatSettings : JID → Except String LocalChatSettings

/-- `applyChatSettings` from `connector.go`: a settings fetch failure is
logged and leaves the info unchanged; otherwise the user-local portal info is
replaced by mute/pin/archive data. -/
def WhatsAppClient.applyChatSettings (_wa : WhatsAppClient) (env : ClientEnv)
    (chatID : JID) (info : ChatInfo) : ChatInfo :=
  match env.getChatSettings chatID with
  | Except.error _ => info
  | Except.ok chat =>
      { info with
          userLocal := some
            { mutedUntil := some chat.mutedUntil
              tag :=
                if chat.pinned then some RoomTagFavourite
                else if chat.archived then some RoomTagLowPriority
                else none } }

/-- `waHistorySync.Conversation` (proto getters used by `applyHistoryInfo`,
flattened; proto getters of absent fields yield zero values). -/
structure Conversation where
  muteEndTime : Int := 0
  pinned : Int := 0
  archived : Bool := false
  ephemeralExpiration : Int := 0
  ephemeralSettingTimestamp : Int := 0
deriving DecidableEq, Repr

/-- `applyHistoryInfo` from `connector.go`: a nil conversation is a no-op,
otherwise backfill is enabled and mute/pin/archive/disappearing data is
merged into the chat info. -/
def applyHistoryInfo (info : ChatInfo) (conv : Option Conversation) : ChatInfo :=
  match conv with
  | none => info
  | some c =>
      let info :=
        { info with
            canBackfill := true
            userLocal := some
              { mutedUntil := some (BridgeTime.unix c.muteEndTime)
                tag :=
                  if c.pinned > 0 then some RoomTagFavourite
                  else if c.archived then some RoomTagLowPriority
                  else none } }
      if c.ephemeralExpiration > 0 then
        { info with
            disappear := some
              { settingType := DisappearingTypeAfterRead
                timerSeconds := c.ephemeralExpiration }
            extraUpdates := info.extraUpdates ++
              [ExtraUpdate.disappearingTimerSetAt c.ephemeralSettingTimestamp] }
      else info

/-- The `switch portalJID.Server` dispatch of `GetChatInfo`: direct chat,
status broadcast (other broadcast lists rejected), group, newsletter, or an
unsupported-server error. -/
def WhatsAppClient.dispatchChatInfo (wa : WhatsAppClient) (env : ClientEnv)
    (portalJID : JID) : Except String ChatInfo :=
  if portalJID.server = DefaultUserServer then
    Except.ok (wa.wrapDMInfo portalJID)
  else if portalJID.server = BroadcastServer then
    (if portalJID = StatusBroadcastJID then Except.ok wa.wrapStatusBroadcastInfo
     else Except.error "broadcast list bridging is currently not supported")
  else if portalJID.server = GroupServer then
    match env.getGroupInfo portalJID with
    | Except.error e => Except.error e
    | Except.ok info => Except.ok (wa.wrapGroupInfo info)
  else if portalJID.server = NewsletterServer then
    match env.getNewsletterInfo portalJID with
    | Except.error e => Except.error e
    | Except.ok info => Except.ok (wa.wrapNewsletterInfo info)
  else Except.error ("unsupported server " ++ portalJID.server)

/-- `GetChatInfo` from `connector.go`. The `waid.ParsePortalID` step lives in
`pkg/waid` (not included under `src/`); its result (a JID, or a parse error
that is returned unchanged) is taken as the input. The local variable `conv`
is declared and never assigned, so the history merge runs on `none`. -/
def WhatsAppClient.GetChatInfo (wa : WhatsAppClient) (env : ClientEnv)
    (parsedPortalID : Except String JID) : Except String ChatInfo :=
  match parsedPortalID with
  | Except.error e => Except.error e
  | Except.ok portalJID =>
      match wa.dispatchChatInfo env portalJID with
      | Except.error e => Except.error e
      | Except.ok wrapped =>
          let conv : Option Conversation := none
          let wrapped := applyHistoryInfo wrapped conv
          let wrapped := wa.applyChatSettings env portalJID wrapped
          Except.ok wrapped

/-- `waid.UserLoginMetadata` (fields used here); the last-history-sync
timestamp is kept as Unix seconds. -/
structure UserLoginMetadata where
  waDeviceID : Nat := 0
  lastHistorySync : Int := 0
deriving DecidableEq, Repr

/-- `bridgev2.UserLogin` as seen by this code: the persisted login ID, the
logged-in state reported by the client, and the typed login metadata. -/
structure UserLogin where
  id : String := ""
  loggedIn : Bool := false
  metadata : UserLoginMetadata := {}
deriving DecidableEq, Repr

/-- A whatsmeow device record (opaque to this layer). -/
structure Device where
  jid : JID
deriving DecidableEq, Repr

/-- The client wrapper constructed by `LoadUserLogin` (fields built there). -/
structure ClientWrapper where
  userLogin : UserLogin
  device : Device
deriving DecidableEq, Repr

/-- The observable side effects of the handlers and of `LoadUserLogin`. -/
inductive Effect where
  | reply (msg : String)
  | logError (err : String) (msg : String)
  | logWarn (msg : String)
  | logInfo (msg : String)
  | setLastHistorySync (t : Int)
  | saveLogin
  | sendGroupsToBackend
  | joinGroup (jid : JID) (inviter : JID) (code : String) (expiration : Int)
  | handleHistorySync (syncType : String)
deriving DecidableEq, Repr

/-- The JID reconstructed by `LoadUserLogin` from the persisted login. -/
def loadUserLoginJID (login : UserLogin) : JID :=
  { user := login.id
    rawAgent := 0
    device := login.metadata.waDeviceID
    server := DefaultUserServer }

/-- The out-of-tree calls made by `LoadUserLogin`: the device-record lookup
and the result of `Client.Connect`. -/
structure LoadEnv where
  getDevice : JID → Except String Device
  connectResult : Except String Unit

/-- `LoadUserLogin` from `connector.go`: reconstructs the JID, loads the
device record (failure returned), builds the client wrapper, connects
(failure only logged) and attaches the wrapper to the login. -/
def LoadUserLogin (env : LoadEnv) (login : UserLogin) :
    Except String (UserLogin × ClientWrapper) × List Effect :=
  let jid := loadUserLoginJID login
  match env.getDevice jid with
  | Except.error e => (Except.error e, [])
  | Except.ok device =>
      let w : ClientWrapper := { userLogin := login, device := device }
      match env.connectResult with
      | Except.error e =>
          (Except.ok (login, w), [Effect.logError e "Error connecting to WhatsApp"])
      | Except.ok _ => (Except.ok (login, w), [])

/-- `waid.MessageMetadata.GroupInvite` (fields used by `fnAccept`). -/
structure GroupInviteMeta where
  jid : JID
  inviter : JID
  code : String := ""
  expiration : Int := 0
deriving DecidableEq, Repr

/-- The message metadata recovered by the type assertion in `fnAccept`. -/
structure MessageMetadata where
  groupInvite : Option GroupInviteMeta := none
deriving DecidableEq, Repr

/-- A stored bridge message row (fields used by `fnAccept`). -/
structure DBMessage where
  metadata : MessageMetadata := {}
deriving DecidableEq, Repr

/-- The command event as seen by the three handlers: reply-target MXID (empty
string when absent), the portal receiver login ID, the user default login and
the cached login for the portal receiver. -/
structure CommandEvent where
  replyTo : String := ""
  portalReceiver : String := ""
  defaultLogin : Option UserLogin := none
  cachedLogin : Option UserLogin := none
deriving DecidableEq, Repr

/-- The out-of-tree calls made by the command handlers, modelled as oracles,
plus the current wall-clock time in Unix seconds. -/
structure CommandEnv where
  getPartByMXID : Except String (Option DBMessage)
  joinGroupResult : Except String Unit
  saveResult : Except String Unit
  sendGroupsResult : Except String Unit
  now : Int

/-- `fnAccept` from `commands.go` as an effect trace: the guarded sequential
check replying at the first failing precondition. -/
def fnAccept (ce : CommandEvent) (env : CommandEnv) : List Effect :=
  if ce.replyTo = "" then
    [Effect.reply "You must reply to a group invite message when using this command."]
  else
    match env.getPartByMXID with
    | Except.error e =>
        [Effect.logError e "Failed to get reply target event to handle !wa accept command",
         Effect.reply "Failed to get reply event"]
    | Except.ok none =>
        [Effect.logWarn "Reply target event not found to handle !wa accept command",
         Effect.reply "Reply event not found"]
    | Except.ok (some message) =>
        match message.metadata.groupInvite with
        | none => [Effect.reply "That doesn\x27t look like a group invite message."]
        | some meta =>
            if meta.inviter.user = (ParseUserLoginID ce.portalReceiver 0).user then
              [Effect.reply "You can\x27t accept your own invites"]
            else
              match ce.cachedLogin with
              | none => [Effect.reply "Login not found"]
              | some login =>
                  if !login.loggedIn then [Effect.reply "Not logged in"]
                  else
                    match env.joinGroupResult with
                    | Except.error e =>
                        [Effect.joinGroup meta.jid meta.inviter meta.code meta.expiration,
                         Effect.logError e "Failed to accept group invite",
                         Effect.reply ("Failed to accept group invite: " ++ e)]
                    | Except.ok _ =>
                        [Effect.joinGroup meta.jid meta.inviter meta.code meta.expiration,
                         Effect.reply "Successfully accepted the invite, the portal should be created momentarily"]

/-- `fnListGroups` from `commands.go`: guard chain, then the forced
last-history-sync reset to `now` minus 24 hours, the metadata save (failure
only logged) and the downstream export call. Returns the login metadata after
the run (`none` when no login exists) and the effect trace. -/
def fnListGroups (ce : CommandEvent) (env : CommandEnv) :
    Option UserLoginMetadata × List Effect :=
  match ce.defaultLogin with
  | none =>
      (none,
       [Effect.reply "No WhatsApp account found. Please use !wa login to connect your WhatsApp account."])
  | some login =>
      if !login.loggedIn then (some login.metadata, [Effect.reply "Not logged in"])
      else
        let newMeta : UserLoginMetadata :=
          { login.metadata with lastHistorySync := env.now - 24 * 3600 }
        let effects :=
          [Effect.setLastHistorySync (env.now - 24 * 3600),
           Effect.logInfo "LastHistorySync time has been updated to force WhatsApp sync",
           Effect.saveLogin]
        let effects :=
          match env.saveResult with
          | Except.error e =>
              effects ++ [Effect.logError e "Failed to save updated LastHistorySync timestamp"]
          | Except.ok _ => effects
        let effects :=
          match env.sendGroupsResult with
          | Except.error e =>
              effects ++
                [Effect.sendGroupsToBackend,
                 Effect.logError e "Failed to send groups to ReMatch backend",
                 Effect.reply ("Failed to send groups to ReMatch backend: " ++ e)]
          | Except.ok _ =>
              effects ++
                [Effect.sendGroupsToBackend,
                 Effect.reply "Successfully sent your WhatsApp groups to ReMatch backend."]
        (some newMeta, effects)

/-- Modelled from the spec: `handleWAHistorySync` (history-sync handler code
not included under `src/`) honors a 24-hour-since-last-sync guard: when less
than 24 hours have passed it skips and logs a skip message, otherwise it
initiates a new sync. The spec does not describe it mutating the login
metadata, so the model reports the invocation and its outcome as effects
only. -/
def handleWAHistorySync (lastHistorySync : Int) (now : Int) (syncType : String) :
    List Effect :=
  if now - lastHistorySync < 24 * 3600 then
    [Effect.handleHistorySync syncType, Effect.logInfo "SYNC SKIPPED"]
  else [Effect.handleHistorySync syncType]

/-- `fnTestSyncTimer` from `commands.go`: guard chain, then a fabricated
INITIAL_BOOTSTRAP history-sync event is fed to the history-sync handler
without touching the stored timestamp, and the completion reply reports the
time since the last sync. Returns the login metadata after the run and the
effect trace. -/
def fnTestSyncTimer (ce : CommandEvent) (env : CommandEnv) :
    Option UserLoginMetadata × List Effect :=
  match ce.defaultLogin with
  | none =>
      (none,
       [Effect.reply "No WhatsApp account found. Please use !wa login to connect your WhatsApp account."])
  | some login =>
      if !login.loggedIn then (some login.metadata, [Effect.reply "Not logged in"])
      else
        let lastSync := login.metadata.lastHistorySync
        let timeSinceLastSync := env.now - lastSync
        let effects :=
          [Effect.logInfo "Testing sync timer - attempting to sync without resetting timer"] ++
            handleWAHistorySync lastSync env.now "INITIAL_BOOTSTRAP"
        let effects :=
          if timeSinceLastSync < 24 * 3600 then
            effects ++
              [Effect.reply ("Sync test completed: Last sync was " ++ toString timeSinceLastSync ++
                " seconds ago, which is less than 24 hours. Check logs for \x27SYNC SKIPPED\x27 message.")]
          else
            effects ++
              [Effect.reply ("Sync test completed: Last sync was " ++ toString timeSinceLastSync ++
                " seconds ago, which is more than 24 hours. A new sync should have been initiated.")]
        (some login.metadata, effects)

/-- The member map of a chat info (empty when no member list was built). -/
def memberMapOf (i : ChatInfo) : List (String × ChatMember) :=
  match i.members with
  | none => []
  | some ml => ml.memberMap

/-- The user-facing replies contained in an effect trace. -/
def repliesOf (l : List Effect) : List String :=
  l.filterMap (fun e =>
    match e with
    | Effect.reply m => some m
    | _ => none)

/-- True exactly on the downstream export call effect. -/
def isExportCall (e : Effect) : Bool :=
  match e with
  | Effect.sendGroupsToBackend => true
  | _ => false

/-- The prefix of a trace strictly before its first downstream export call. -/
def effectsBeforeExport (l : List Effect) : List Effect :=
  l.takeWhile (fun e => !isExportCall e)

/-- True exactly on the effects that write the stored login record: an
assignment of the last-history-sync field or a login save. -/
def isTimerWrite (e : Effect) : Bool :=
  match e with
  | Effect.setLastHistorySync _ => true
  | Effect.saveLogin => true
  | _ => false

/-- No effect in the trace writes the stored login record. -/
def noTimerWrites (l : List Effect) : Bool :=
  l.all (fun e => !isTimerWrite e)

/-- Spec-side definition, following the spec words for the `accept` handler:
a guarded sequential check replying with a specific operator-facing message
at the first failing precondition, and a success message otherwise. -/
def specReplyAccept (ce : CommandEvent) (env : CommandEnv) : String :=
  if ce.replyTo = "" then
    "You must reply to a group invite message when using this command."
  else
    match env.getPartByMXID with
    | Except.error _ => "Failed to get reply event"
    | Except.ok none => "Reply event not found"
    | Except.ok (some message) =>
        match message.metadata.groupInvite with
        | none => "That doesn\x27t look like a group invite message."
        | some meta =>
            if meta.inviter.user = (ParseUserLoginID ce.portalReceiver 0).user then
              "You can\x27t accept your own invites"
            else
              match ce.cachedLogin with
              | none => "Login not found"
              | some login =>
                  if !login.loggedIn then "Not logged in"
                  else
                    match env.joinGroupResult with
                    | Except.error e => "Failed to accept group invite: " ++ e
                    | Except.ok _ =>
                        "Successfully accepted the invite, the portal should be created momentarily"

/-- Spec-side definition, following the spec words for the `list-groups`
handler: login exists, logged in, then the export action; the first failing
precondition determines the reply. -/
def specReplyListGroups (ce : CommandEvent) (env : CommandEnv) : String :=
  match ce.defaultLogin with
  | none => "No WhatsApp account found. Please use !wa login to connect your WhatsApp account."
  | some login =>
      if !login.loggedIn then "Not logged in"
      else
        match env.sendGroupsResult with
        | Except.error e => "Failed to send groups to ReMatch backend: " ++ e
        | Except.ok _ => "Successfully sent your WhatsApp groups to ReMatch backend."

/-- Spec-side definition, following the spec words for the `test-sync-timer`
handler: login exists, logged in, then a completion reply reporting whether
the last sync was less or more than 24 hours ago. -/
def specReplyTestSyncTimer (ce : CommandEvent) (env : CommandEnv) : String :=
  match ce.defaultLogin with
  | none => "No WhatsApp account found. Please use !wa login to connect your WhatsApp account."
  | some login =>
      if !login.loggedIn then "Not logged in"
      else if env.now - login.metadata.lastHistorySync < 24 * 3600 then
        "Sync test completed: Last sync was " ++
          toString (env.now - login.metadata.lastHistorySync) ++
          " seconds ago, which is less than 24 hours. Check logs for \x27SYNC SKIPPED\x27 message."
      else
        "Sync test completed: Last sync was " ++
          toString (env.now - login.metadata.lastHistorySync) ++
          " seconds ago, which is more than 24 hours. A new sync should have been initiated."

/-- Spec-side definition, following the spec words for the newsletter mute
mapping: mute state on maps to the muted-forever sentinel, off to the
unmuted sentinel, anything else (or no viewer metadata) to no mute value. -/
def specMuteSentinel : Option NewsletterViewerMeta → Option BridgeTime
  | none => none
  | some vm =>
      if vm.mute = NewsletterMuteOn then some BridgeTime.mutedForever
      else if vm.mute = NewsletterMuteOff then some BridgeTime.unmuted
      else none

/-- A concrete logged-in login used by concrete instantiations. -/
def demoLogin : UserLogin :=
  { id := "15551234567"
    loggedIn := true
    metadata := { waDeviceID := 1, lastHistorySync := 0 } }

/-- A concrete command event whose user has the demo login. -/
def demoCommandEvent : CommandEvent :=
  { defaultLogin := some demoLogin }

/-- A concrete command environment where every collaborator call succeeds. -/
def demoCommandEnv : CommandEnv :=
  { getPartByMXID := Except.ok none
    joinGroupResult := Except.ok ()
    saveResult := Except.ok ()
    sendGroupsResult := Except.ok ()
    now := 1700000000 }

/-- A concrete client wrapper state (the demo login JID). -/
def demoClient : WhatsAppClient :=
  { jid := { user := "15551234567", rawAgent := 0, device := 21, server := DefaultUserServer } }

/-- A concrete client environment whose collaborator fetches all fail (none
of them is consulted on the paths instantiated with it). -/
def demoClientEnv : ClientEnv :=
  { getGroupInfo := fun _ => Except.error "unavailable"
    getNewsletterInfo := fun _ => Except.error "unavailable"
    getChatSettings := fun _ => Except.error "unavailable" }

/-- A concrete broadcast-list JID distinct from the status broadcast JID. -/
def demoBroadcastListJID : JID :=
  { user := "123456789-1622000000", rawAgent := 0, device := 0, server := BroadcastServer }

/-- A concrete group participant flagged both admin and super-admin. -/
def demoSuperAdmin : GroupParticipant :=
  { jid := { user := "491701234567", rawAgent := 0, device := 0, server := DefaultUserServer }
    isAdmin := true
    isSuperAdmin := true }

/-- A concrete group whose only participant is the demo super-admin. -/
def demoGroupInfo : GroupInfo :=
  { jid := { user := "120363025246125486", rawAgent := 0, device := 0, server := GroupServer }
    name := "Demo group"
    isAnnounce := true
    participants := [demoSuperAdmin] }

theorem mapGet_mapSet_self (m : List (String × ChatMember)) (k : String) (v : ChatMember) :
    mapGet (mapSet m k v) k = some v := by
  induction m with
  | nil => simp [mapSet, mapGet]
  | cons p t ih =>
      by_cases hp : p.fst = k
      · simp [mapSet, mapGet, hp]
      · simp [mapSet, mapGet, hp, ih]

theorem mapGet_mapSet_ne (m : List (String × ChatMember)) (k1 k2 : String) (v : ChatMember)
    (h : k1 ≠ k2) : mapGet (mapSet m k1 v) k2 = mapGet m k2 := by
  induction m with
  | nil => simp [mapSet, mapGet, h]
  | cons p t ih =>
      by_cases hp : p.fst = k1
      · simp [mapSet, mapGet, hp, h]
      · simp [mapSet, mapGet, hp, ih]

/-- C2: for a direct-chat JID equal to the logged-in user own normalized
(non-AD) address, the member map built by `wrapDMInfo` has exactly two
entries: one keyed by the empty-string user ID whose event sender is flagged
from-me, and one keyed by the peer (own) user ID; the two keys are
distinct, so the map never collapses to a single merged entry. -/
theorem wrapDMInfo_self_chat_force_split (wa : WhatsAppClient) (jid : JID)
    (hjid : jid = wa.jid.toNonAD) (huser : wa.jid.user ≠ "") :
    (memberMapOf (wa.wrapDMInfo jid)).length = 2 ∧
    mapGet (memberMapOf (wa.wrapDMInfo jid)) "" =
      some { eventSender := { isFromMe := true } } ∧
    mapGet (memberMapOf (wa.wrapDMInfo jid)) (MakeUserID jid) =
      some { eventSender := { sender := MakeUserID jid } } ∧
    MakeUserID jid ≠ "" := by
  subst hjid
  have hu : wa.jid.toNonAD.user = wa.jid.user := rfl
  refine ⟨?_, ?_, ?_, ?_⟩ <;>
    simp [WhatsAppClient.wrapDMInfo, memberMapOf, mapLit, mapSet, mapGet,
      MakeUserID, JID.toNonAD, huser]

/-- A concrete self-chat instance of the C2 theorem. -/
theorem wrapDMInfo_self_chat_force_split_witness :
    (memberMapOf (demoClient.wrapDMInfo demoClient.jid.toNonAD)).length = 2 ∧
    mapGet (memberMapOf (demoClient.wrapDMInfo demoClient.jid.toNonAD)) "" =
      some { eventSender := { isFromMe := true } } ∧
    mapGet (memberMapOf (demoClient.wrapDMInfo demoClient.jid.toNonAD))
        (MakeUserID demoClient.jid.toNonAD) =
      some { eventSender := { sender := MakeUserID demoClient.jid.toNonAD } } ∧
    MakeUserID demoClient.jid.toNonAD ≠ "" :=
  wrapDMInfo_self_chat_force_split demoClient demoClient.jid.toNonAD rfl (by decide)

/-- C5: the send-event power level computed by `wrapGroupInfo` is the admin
threshold when the group is announce-only and the default otherwise, where
the admin threshold is 50 and the default is 0. -/
theorem wrapGroupInfo_events_default_power (wa : WhatsAppClient) (info : GroupInfo) :
    ((wa.wrapGroupInfo info).members.bind ChatMemberList.powerLevels).map
        PowerLevelOverrides.eventsDefault =
      some (some (if info.isAnnounce then adminPL else defaultPL)) ∧
    adminPL = 50 ∧ defaultPL = 0 := by
  refine ⟨?_, rfl, rfl⟩
  by_cases ha : info.isAnnounce <;>
    simp [WhatsAppClient.wrapGroupInfo, ha]

/-- C6: the mute-until value placed into the user-local portal info by
`wrapNewsletterInfo` follows the mute mapping of the spec: viewer mute state on
yields the muted-forever sentinel, off yields the unmuted sentinel. -/
theorem wrapNewsletterInfo_mute_sentinels (wa : WhatsAppClient) (info : NewsletterMetadata) :
    (wa.wrapNewsletterInfo info).userLocal =
      some { mutedUntil := specMuteSentinel info.viewerMeta, tag := none } := by
  cases hv : info.viewerMeta <;>
    simp [WhatsAppClient.wrapNewsletterInfo, specMuteSentinel, hv]

theorem groupMemberStep_fold_superAdmin (wa : WhatsAppClient) (k : String)
    (l : List GroupParticipant) (m0 : List (String × ChatMember))
    (hall : ∀ q ∈ l, MakeUserID q.jid = k → q.jid.server = DefaultUserServer →
      q.isSuperAdmin = true)
    (hex : (∃ q ∈ l, MakeUserID q.jid = k ∧ q.jid.server = DefaultUserServer) ∨
      (∃ m, mapGet m0 k = some m ∧ m.powerLevel = some superAdminPL)) :
    ∃ m, mapGet (l.foldl wa.groupMemberStep m0) k = some m ∧
      m.powerLevel = some superAdminPL := by
  induction l generalizing m0 with
  | nil =>
      rcases hex with ⟨q, hq, _⟩ | h
      · simp at hq
      · simpa using h
  | cons q t ih =>
      simp only [List.foldl_cons]
      apply ih
      · intro q2 h2 hk2 hs2
        exact hall q2 (List.mem_cons_of_mem _ h2) hk2 hs2
      · by_cases hsrv : q.jid.server = DefaultUserServer
        · by_cases hk : MakeUserID q.jid = k
          · right
            refine ⟨wa.wrapGroupMember q, ?_, ?_⟩
            · rw [show wa.groupMemberStep m0 q =
                  mapSet m0 (MakeUserID q.jid) (wa.wrapGroupMember q) by
                    simp [WhatsAppClient.groupMemberStep, hsrv]]
              rw [hk, mapGet_mapSet_self]
            · have hsup := hall q (List.mem_cons_self q t) hk hsrv
              simp [WhatsAppClient.wrapGroupMember, hsup]
          · rcases hex with ⟨q0, hq0, hkey0, hsrv0⟩ | ⟨m, hm, hpl⟩
            · rcases List.mem_cons.mp hq0 with rfl | hq0t
              · exact absurd hkey0 hk
              · exact Or.inl ⟨q0, hq0t, hkey0, hsrv0⟩
            · right
              refine ⟨m, ?_, hpl⟩
              rw [show wa.groupMemberStep m0 q =
                  mapSet m0 (MakeUserID q.jid) (wa.wrapGroupMember q) by
                    simp [WhatsAppClient.groupMemberStep, hsrv]]
              rw [mapGet_mapSet_ne _ _ _ _ hk]
              exact hm
        · have hstep : wa.groupMemberStep m0 q = m0 := by
            simp [WhatsAppClient.groupMemberStep, hsrv]
          rcases hex with ⟨q0, hq0, hkey0, hsrv0⟩ | h
          · rcases List.mem_cons.mp hq0 with rfl | hq0t
            · exact absurd hsrv0 hsrv
            · exact Or.inl ⟨q0, hq0t, hkey0, hsrv0⟩
          · rw [hstep]
            exact Or.inr h

/-- C4: a group participant on the default user server flagged super-admin is
mapped by `wrapGroupInfo` to a member entry with power level 75, regardless
of its simultaneous admin flag (the key-uniqueness hypothesis reflects that a
fetched participant list has one entry per user). -/
theorem wrapGroupInfo_superAdmin_power_level (wa : WhatsAppClient) (info : GroupInfo)
    (pcp : GroupParticipant) (hmem : pcp ∈ info.participants)
    (hserver : pcp.jid.server = DefaultUserServer) (hsuper : pcp.isSuperAdmin = true)
    (hkey : ∀ q ∈ info.participants, MakeUserID q.jid = MakeUserID pcp.jid →
      q.jid.server = DefaultUserServer → q.isSuperAdmin = true) :
    (wa.wrapGroupMember pcp).powerLevel = some superAdminPL ∧
    (mapGet (memberMapOf (wa.wrapGroupInfo info)) (MakeUserID pcp.jid)).map
        ChatMember.powerLevel = some (some superAdminPL) := by
  constructor
  · simp [WhatsAppClient.wrapGroupMember, hsuper]
  · have hmap : memberMapOf (wa.wrapGroupInfo info) =
        info.participants.foldl wa.groupMemberStep [] := by
      simp [WhatsAppClient.wrapGroupInfo, memberMapOf]
    rw [hmap]
    obtain ⟨m, hget, hpl⟩ := groupMemberStep_fold_superAdmin wa (MakeUserID pcp.jid)
      info.participants [] hkey (Or.inl ⟨pcp, hmem, rfl, hserver⟩)
    rw [hget]
    simp [hpl]

/-- A concrete instance of the C4 theorem: the demo participant is flagged
both admin and super-admin and still gets power level 75. -/
theorem wrapGroupInfo_superAdmin_power_level_witness :
    (demoClient.wrapGroupMember demoSuperAdmin).powerLevel = some superAdminPL ∧
    (mapGet (memberMapOf (demoClient.wrapGroupInfo demoGroupInfo))
        (MakeUserID demoSuperAdmin.jid)).map ChatMember.powerLevel =
      some (some superAdminPL) :=
  wrapGroupInfo_superAdmin_power_level demoClient demoGroupInfo demoSuperAdmin
    (by decide) (by decide) (by decide) (by decide)

/-- C3: dispatching on a broadcast-server JID other than the status broadcast
address yields the descriptive unsupported error and no chat info. -/
theorem GetChatInfo_broadcast_list_rejected (wa : WhatsAppClient) (env : ClientEnv)
    (pj : JID) (hserver : pj.server = BroadcastServer) (hne : pj ≠ StatusBroadcastJID) :
    wa.GetChatInfo env (Except.ok pj) =
      Except.error "broadcast list bridging is currently not supported" := by
  have hdispatch : wa.dispatchChatInfo env pj =
      Except.error "broadcast list bridging is currently not supported" := by
    unfold WhatsAppClient.dispatchChatInfo
    rw [hserver]
    rw [if_neg (by decide : ¬ (BroadcastServer = DefaultUserServer))]
    rw [if_pos rfl]
    rw [if_neg hne]
  show (match wa.dispatchChatInfo env pj with
    | Except.error e => Except.error e
    | Except.ok wrapped =>
        Except.ok (wa.applyChatSettings env pj (applyHistoryInfo wrapped none))) =
    Except.error "broadcast list bridging is currently not supported"
  rw [hdispatch]

/-- A concrete instance of the C3 theorem on a broadcast-list JID. -/
theorem GetChatInfo_broadcast_list_rejected_witness :
    demoClient.GetChatInfo demoClientEnv (Except.ok demoBroadcastListJID) =
      Except.error "broadcast list bridging is currently not supported" :=
  GetChatInfo_broadcast_list_rejected demoClient demoClientEnv demoBroadcastListJID
    rfl (by decide)

theorem applyChatSettings_canBackfill (wa : WhatsAppClient) (env : ClientEnv)
    (chatID : JID) (info : ChatInfo) :
    (wa.applyChatSettings env chatID info).canBackfill = info.canBackfill := by
  unfold WhatsAppClient.applyChatSettings
  cases env.getChatSettings chatID <;> rfl

theorem dispatchChatInfo_canBackfill (wa : WhatsAppClient) (env : ClientEnv)
    (pj : JID) (wrapped : ChatInfo) (h : wa.dispatchChatInfo env pj = Except.ok wrapped) :
    wrapped.canBackfill = false := by
  unfold WhatsAppClient.dispatchChatInfo at h
  split at h
  · cases h; rfl
  · split at h
    · split at h
      · cases h; rfl
      · cases h
    · split at h
      · split at h
        · cases h
        · cases h; rfl
      · split at h
        · split at h
          · cases h
          · cases h; rfl
        · cases h

/-- C10: every chat info successfully returned by `GetChatInfo` has backfill
disabled, and the history-info merge that `GetChatInfo` runs on its
always-nil conversation leaves the chat info unchanged. -/
theorem GetChatInfo_never_backfills (wa : WhatsAppClient) (env : ClientEnv)
    (pid : Except String JID) (info : ChatInfo)
    (h : wa.GetChatInfo env pid = Except.ok info) :
    info.canBackfill = false ∧ applyHistoryInfo info none = info := by
  refine ⟨?_, rfl⟩
  rcases pid with e | pj
  · exact absurd h (by simp [WhatsAppClient.GetChatInfo])
  · have h2 : (match wa.dispatchChatInfo env pj with
        | Except.error e => Except.error e
        | Except.ok wrapped =>
            Except.ok (wa.applyChatSettings env pj (applyHistoryInfo wrapped none))) =
        Except.ok info := h
    cases hd : wa.dispatchChatInfo env pj with
    | error e => rw [hd] at h2; cases h2
    | ok wrapped =>
        rw [hd] at h2
        have hinfo : wa.applyChatSettings env pj (applyHistoryInfo wrapped none) = info :=
          Except.ok.inj h2
        rw [← hinfo, applyChatSettings_canBackfill]
        have hnoop : applyHistoryInfo wrapped none = wrapped := rfl
        rw [hnoop]
        exact dispatchChatInfo_canBackfill wa env pj wrapped hd

/-- A concrete instance of the C10 theorem on the status broadcast portal. -/
theorem GetChatInfo_never_backfills_witness :
    (demoClient.wrapStatusBroadcastInfo).canBackfill = false ∧
    applyHistoryInfo demoClient.wrapStatusBroadcastInfo none =
      demoClient.wrapStatusBroadcastInfo :=
  GetChatInfo_never_backfills demoClient demoClientEnv (Except.ok StatusBroadcastJID)
    demoClient.wrapStatusBroadcastInfo rfl

/-- C1 counterexample: a concrete `list-groups` invocation that passes both
guards stores `now` minus exactly 24 hours (1700000000 - 86400 = 1699913600),
which is not strictly earlier than `now` minus 24 hours, refuting the strict
inequality asserted by the claim. -/
theorem fnListGroups_C1_counterexample :
    demoCommandEvent.defaultLogin = some demoLogin ∧
    demoLogin.loggedIn = true ∧
    (fnListGroups demoCommandEvent demoCommandEnv).fst =
      some { waDeviceID := 1, lastHistorySync := 1699913600 } ∧
    ¬ (1699913600 < demoCommandEnv.now - 24 * 3600) := by
  refine ⟨rfl, rfl, rfl, by decide⟩

/-- C1 (amended): every `list-groups` invocation that passes the login-exists
and logged-in guards sets the stored last-history-sync timestamp to exactly
`now` minus 24 hours (at least, not strictly more than, 24 hours in the
past), regardless of its prior value, and the assignment occurs in the
effect trace strictly before the downstream export call. -/
theorem fnListGroups_resets_lastHistorySync_24h (ce : CommandEvent) (env : CommandEnv)
    (login : UserLogin) (hlogin : ce.defaultLogin = some login)
    (hin : login.loggedIn = true) :
    (fnListGroups ce env).fst =
      some { login.metadata with lastHistorySync := env.now - 24 * 3600 } ∧
    Effect.setLastHistorySync (env.now - 24 * 3600) ∈
      effectsBeforeExport (fnListGroups ce env).snd ∧
    Effect.sendGroupsToBackend ∈ (fnListGroups ce env).snd := by
  cases hs : env.saveResult <;> cases hg : env.sendGroupsResult <;>
    simp [fnListGroups, hlogin, hin, hs, hg, effectsBeforeExport, isExportCall,
      List.takeWhile]

/-- A concrete instance of the amended C1 theorem. -/
theorem fnListGroups_resets_lastHistorySync_24h_witness :
    (fnListGroups demoCommandEvent demoCommandEnv).fst =
      some { demoLogin.metadata with lastHistorySync := demoCommandEnv.now - 24 * 3600 } ∧
    Effect.setLastHistorySync (demoCommandEnv.now - 24 * 3600) ∈
      effectsBeforeExport (fnListGroups demoCommandEvent demoCommandEnv).snd ∧
    Effect.sendGroupsToBackend ∈ (fnListGroups demoCommandEvent demoCommandEnv).snd :=
  fnListGroups_resets_lastHistorySync_24h demoCommandEvent demoCommandEnv demoLogin rfl rfl

/-- C9: `test-sync-timer` leaves the stored login metadata unchanged and its
trace contains neither a last-history-sync assignment nor a login save, while
(once both guards pass) the history-sync handler is invoked with the
fabricated INITIAL_BOOTSTRAP sync event. -/
theorem fnTestSyncTimer_preserves_lastHistorySync (ce : CommandEvent) (env : CommandEnv)
    (login : UserLogin) (hlogin : ce.defaultLogin = some login)
    (hin : login.loggedIn = true) :
    (fnTestSyncTimer ce env).fst = some login.metadata ∧
    noTimerWrites (fnTestSyncTimer ce env).snd = true ∧
    Effect.handleHistorySync "INITIAL_BOOTSTRAP" ∈ (fnTestSyncTimer ce env).snd := by
  by_cases ht : env.now - login.metadata.lastHistorySync < 86400 <;>
    simp [fnTestSyncTimer, hlogin, hin, ht, handleWAHistorySync, noTimerWrites,
      isTimerWrite]

/-- A concrete instance of the C9 theorem. -/
theorem fnTestSyncTimer_preserves_lastHistorySync_witness :
    (fnTestSyncTimer demoCommandEvent demoCommandEnv).fst = some demoLogin.metadata ∧
    noTimerWrites (fnTestSyncTimer demoCommandEvent demoCommandEnv).snd = true ∧
    Effect.handleHistorySync "INITIAL_BOOTSTRAP" ∈
      (fnTestSyncTimer demoCommandEvent demoCommandEnv).snd :=
  fnTestSyncTimer_preserves_lastHistorySync demoCommandEvent demoCommandEnv demoLogin rfl rfl

/-- C8: `LoadUserLogin` returns exactly the device-record lookup outcome: a
lookup failure is returned unchanged, while on lookup success the login is
returned with its client wrapper attached and a nil error, independently of
whether the connection attempt in the environment succeeds or fails. -/
theorem LoadUserLogin_connect_failure_nonfatal (env : LoadEnv) (login : UserLogin) :
    (LoadUserLogin env login).fst =
      (match env.getDevice (loadUserLoginJID login) with
       | Except.error e => Except.error e
       | Except.ok device =>
           Except.ok (login, { userLogin := login, device := device })) := by
  unfold LoadUserLogin
  cases hd : env.getDevice (loadUserLoginJID login) <;>
    cases hc : env.connectResult <;> simp [hd, hc]

/-- C7: none of the three command handlers propagates an error (each is a
total function into an effect trace), every execution emits exactly one
user-facing reply, and that reply is the one dictated by the first failing
precondition of the guard sequence of the spec (or the success message). -/
theorem command_handlers_reply_exactly_once (ce : CommandEvent) (env : CommandEnv) :
    repliesOf (fnAccept ce env) = [specReplyAccept ce env] ∧
    repliesOf (fnListGroups ce env).snd = [specReplyListGroups ce env] ∧
    repliesOf (fnTestSyncTimer ce env).snd = [specReplyTestSyncTimer ce env] := by
  refine ⟨?_, ?_, ?_⟩
  · by_cases h1 : ce.replyTo = ""
    · simp [fnAccept, specReplyAccept, repliesOf, h1]
    · cases hp : env.getPartByMXID with
      | error e => simp [fnAccept, specReplyAccept, repliesOf, h1, hp]
      | ok om =>
          cases om with
          | none => simp [fnAccept, specReplyAccept, repliesOf, h1, hp]
          | some message =>
              cases hgi : message.metadata.groupInvite with
              | none => simp [fnAccept, specReplyAccept, repliesOf, h1, hp, hgi]
              | some meta =>
                  by_cases hself :
                      meta.inviter.user = (ParseUserLoginID ce.portalReceiver 0).user
                  · simp [fnAccept, specReplyAccept, repliesOf, h1, hp, hgi, hself]
                  · cases hcl : ce.cachedLogin with
                    | none => simp [fnAccept, specReplyAccept, repliesOf, h1, hp, hgi,
                        hself, hcl]
                    | some login =>
                        by_cases hli : login.loggedIn <;>
                          cases hj : env.joinGroupResult <;>
                            simp [fnAccept, specReplyAccept, repliesOf, h1, hp, hgi,
                              hself, hcl, hli, hj]
  · cases hd : ce.defaultLogin with
    | none => simp [fnListGroups, specReplyListGroups, repliesOf, hd]
    | some login =>
        by_cases hli : login.loggedIn <;>
          cases hs : env.saveResult <;> cases hg : env.sendGroupsResult <;>
            simp [fnListGroups, specReplyListGroups, repliesOf, hd, hli, hs, hg]
  · cases hd : ce.defaultLogin with
    | none => simp [fnTestSyncTimer, specReplyTestSyncTimer, repliesOf, hd]
    | some login =>
        by_cases hli : login.loggedIn <;>
          by_cases ht : env.now - login.metadata.lastHistorySync < 86400 <;>
            simp [fnTestSyncTimer, specReplyTestSyncTimer, repliesOf, hd, hli, ht,
              handleWAHistorySync]

end MautrixWA
